import Mathlib

/-!
Verification of the Ed25519 signing/verification wrapper in
`src/cryptographic_seal.py` (classes `CryptographicSeal` and
`HierarchicalSeal`).

The Ed25519 primitive itself (from the `cryptography` library) is modelled
symbolically as a perfect signature scheme: a private key is identified by
its seed, the derived public key by the corresponding point, a structurally
valid signature records the signing key's point and the exact message, and
library-level verification succeeds exactly when the signature was produced
by the matching private key over exactly those message bytes.  This is the
standard idealisation for reasoning about wrapper code: every claim below
is about the wrapper's control flow (which key is used, which exceptions
escape, which dictionary fields are read), not about the cryptographic
strength of Ed25519.

Python exceptions are modelled with `Except PyErr`; a Python function that
can raise returns `Except PyErr α`, and a `try/except` block is a `match`
on that result.  PEM serialisation is injective and parsed back exactly, so
a PEM string is modelled by the key it encodes; `Optional[str]` constructor
arguments are modelled by `PyStrOpt`, whose `none` and `emptyStr`
constructors are the two falsy Python values observed by the
`if private_key_pem and public_key_pem` truthiness test.
-/

/-- Byte strings (Python `bytes`) as lists of byte values. -/
abbrev Bytes := List Nat

/-- Encode a Python string to bytes (`str.encode()`), one code point per entry. -/
def strBytes (s : String) : Bytes := s.toList.map (fun c => c.toNat)

/-- The exceptions the wrapper code can produce or observe. -/
inductive PyErr where
  /-- `ValueError("Signature required for verification")` raised by `verify`. -/
  | valueErrorSigRequired : PyErr
  /-- `ValueError(f"Signature verification failed: ...")` raised by `verify`. -/
  | valueErrorVerifyFailed : PyErr
  /-- `binascii.Error` from `base64.b64decode` on text that is not valid base64. -/
  | binasciiError : PyErr
  /-- `KeyError` from reading a missing dictionary key. -/
  | keyError : PyErr
  /-- `cryptography.exceptions.InvalidSignature` from the library `verify`. -/
  | invalidSignature : PyErr
deriving DecidableEq, Repr

/-- An Ed25519 private key, identified by its 32-byte seed. -/
structure Ed25519PrivateKey where
  seed : Nat
deriving DecidableEq, Repr

/-- An Ed25519 public key, identified by its curve point. -/
structure Ed25519PublicKey where
  point : Nat
deriving DecidableEq, Repr

/-- Derivation of the public key from the private key
(`Ed25519PrivateKey.public_key()` in the library); injective on seeds. -/
def Ed25519PrivateKey.public_key (k : Ed25519PrivateKey) : Ed25519PublicKey :=
  ⟨k.seed⟩

/-- Raw signature bytes as handed to the library `verify`: either a
structurally valid 64-byte Ed25519 signature (recording the signing key's
point and the signed message, since Ed25519 signing is deterministic), or
bytes that are not a structurally valid signature (wrong length). -/
inductive SigBytes where
  | sig (point : Nat) (msg : Bytes) : SigBytes
  | malformed (junk : Nat) : SigBytes
deriving DecidableEq, Repr

/-- Library-level signing (`private_key.sign(message)`): deterministic,
produces a structurally valid signature bound to the key and the message. -/
def Ed25519PrivateKey.sign (k : Ed25519PrivateKey) (m : Bytes) : SigBytes :=
  .sig k.seed m

/-- Library-level verification (`public_key.verify(signature, message)`):
returns unit on success and raises `InvalidSignature` otherwise, succeeding
exactly when the signature was produced by the matching private key over
exactly these message bytes. -/
def Ed25519PublicKey.verify (pub : Ed25519PublicKey) (s : SigBytes) (m : Bytes) :
    Except PyErr Unit :=
  match s with
  | .sig p msg => if p = pub.point ∧ msg = m then .ok () else .error .invalidSignature
  | .malformed _ => .error .invalidSignature

/-- A base64 text value as passed to `verify`: either the base64 encoding of
some raw bytes, or text that `base64.b64decode` rejects (bad padding). -/
inductive B64Str where
  | enc (s : SigBytes) : B64Str
  | badPadding (junk : Nat) : B64Str
deriving DecidableEq, Repr

/-- `base64.b64encode(...).decode()`. -/
def b64encode (s : SigBytes) : B64Str := .enc s

/-- `base64.b64decode`: inverse of `b64encode`, raising `binascii.Error`
on text that is not valid base64. -/
def b64decode : B64Str → Except PyErr SigBytes
  | .enc s => .ok s
  | .badPadding _ => .error .binasciiError

/-- An `Optional[str]` PEM argument as tested by Python truthiness: `None`,
the empty string (both falsy), or a non-empty PEM encoding of a key
(truthy).  PEM serialisation is lossless, so the encoding is modelled by
the key it denotes. -/
inductive PyStrOpt (α : Type) where
  | none : PyStrOpt α
  | emptyStr : PyStrOpt α
  | pemOf (a : α) : PyStrOpt α
deriving DecidableEq, Repr

/-- Python truthiness of an `Optional[str]`: `None` and `""` are falsy. -/
def PyStrOpt.truthy : PyStrOpt α → Bool
  | .pemOf _ => true
  | _ => false

/-- The `CryptographicSeal` instance state: the two key attributes set by
`__init__`. -/
structure CryptographicSeal where
  private_key : Ed25519PrivateKey
  public_key : Ed25519PublicKey
deriving DecidableEq, Repr

/-- The class constant `COVENANT_MESSAGE = b"CHICKA_CHICKA_ORANGE"`. -/
def COVENANT_MESSAGE : Bytes := strBytes "CHICKA_CHICKA_ORANGE"

/-- `CryptographicSeal.__init__`: if both PEM arguments are truthy, load
them (storing the supplied public key verbatim); otherwise generate a fresh
key pair, with `fresh` standing for the seed drawn from the CSPRNG by
`Ed25519PrivateKey.generate()`, and derive the public key from it. -/
def CryptographicSeal.init (private_key_pem : PyStrOpt Ed25519PrivateKey)
    (public_key_pem : PyStrOpt Ed25519PublicKey) (fresh : Nat) :
    CryptographicSeal :=
  match private_key_pem, public_key_pem with
  | .pemOf sk, .pemOf pk => ⟨sk, pk⟩
  | _, _ =>
    let sk : Ed25519PrivateKey := ⟨fresh⟩
    ⟨sk, sk.public_key⟩

/-- `get_private_key_pem`: export the private key as PEM text. -/
def CryptographicSeal.get_private_key_pem (s : CryptographicSeal) :
    PyStrOpt Ed25519PrivateKey :=
  .pemOf s.private_key

/-- `get_public_key_pem`: export the public key as PEM text. -/
def CryptographicSeal.get_public_key_pem (s : CryptographicSeal) :
    PyStrOpt Ed25519PublicKey :=
  .pemOf s.public_key

/-- `CryptographicSeal.sign(message=None)`: sign `message` (defaulting to
`COVENANT_MESSAGE`) with the private key and return the base64-encoded
signature.  The instance always holds a private key, so this never raises. -/
def CryptographicSeal.sign (s : CryptographicSeal) (message : Option Bytes) :
    B64Str :=
  let m := message.getD COVENANT_MESSAGE
  b64encode (s.private_key.sign m)

/-- `CryptographicSeal.verify(message=None, signature_b64=None)`: raises
`ValueError` when no signature is supplied; base64-decodes the signature
OUTSIDE the try block (so `binascii.Error` propagates); then calls the
library `verify` inside `try`, returning `True` on success and re-raising
any failure as `ValueError("Signature verification failed: ...")`. -/
def CryptographicSeal.verify (s : CryptographicSeal) (message : Option Bytes)
    (signature_b64 : Option B64Str) : Except PyErr Bool :=
  let m := message.getD COVENANT_MESSAGE
  match signature_b64 with
  | .none => .error .valueErrorSigRequired
  | .some sb =>
    match b64decode sb with
    | .error e => .error e
    | .ok sigBytes =>
      match s.public_key.verify sigBytes m with
      | .ok _ => .ok true
      | .error _ => .error .valueErrorVerifyFailed

/-- The sealed-covenant dictionary (keys `covenant`, `signature`,
`algorithm`, `public_key`, `verified`); `Option` fields model key
presence. -/
structure SealedDict where
  covenant : Option String
  signature : Option B64Str
  algorithm : Option String
  public_key : Option (PyStrOpt Ed25519PublicKey)
  verified : Option Bool
deriving DecidableEq, Repr

/-- `create_sealed_covenant`: sign the covenant message and bundle
covenant text, signature, algorithm name, public-key PEM and a `verified`
flag. -/
def CryptographicSeal.create_sealed_covenant (s : CryptographicSeal) :
    SealedDict :=
  ⟨some "CHICKA_CHICKA_ORANGE", some (s.sign .none), some "Ed25519",
    some s.get_public_key_pem, some true⟩

/-- `verify_sealed_covenant`: read `covenant` and `signature` from the
dictionary (a missing key raises `KeyError`) and check them with
`self.verify`, i.e. under the receiving instance's own public key.  The
dictionary's `public_key`, `algorithm` and `verified` entries are never
read. -/
def CryptographicSeal.verify_sealed_covenant (s : CryptographicSeal)
    (d : SealedDict) : Except PyErr Bool :=
  match d.covenant with
  | .none => .error .keyError
  | .some cov =>
    match d.signature with
    | .none => .error .keyError
    | .some sig => s.verify (some (strBytes cov)) (some sig)

/-- The `integrity` sub-dictionary of a complete seal (keys `hash`,
`algorithm`, `full_signature`, `public_key`). -/
structure IntegrityDict where
  hash : Option String
  algorithm : Option String
  full_signature : Option B64Str
  public_key : Option (PyStrOpt Ed25519PublicKey)
deriving DecidableEq, Repr

/-- The complete-seal dictionary as read by `verify_complete_seal`: only
the `covenant` and `integrity` keys are ever accessed (the `sigil`,
`orientation` and `verification` entries are never read). -/
structure CompleteSealDict where
  covenant : Option String
  integrity : Option IntegrityDict
deriving DecidableEq, Repr

/-- The `HierarchicalSeal` instance state: the cryptographic layer plus the
two narrative string attributes. -/
structure HierarchicalSeal where
  crypto_seal : CryptographicSeal
  hieroglyphic_sigil : String
  metaphoric_covenant : String
deriving DecidableEq, Repr

/-- `HierarchicalSeal.__init__`: generate a fresh `CryptographicSeal` and
set the two narrative strings. -/
def HierarchicalSeal.init (fresh : Nat) : HierarchicalSeal :=
  ⟨CryptographicSeal.init .none .none fresh, "∂∇Δ–MM–Δ • 8∞SS̄△△",
    "CHICKA_CHICKA_ORANGE"⟩

/-- `HierarchicalSeal.verify_complete_seal`: inside a `try/except` that
catches every exception and returns `False`, read `covenant`,
`integrity.full_signature` and `integrity.public_key` (each missing key
raises `KeyError`, caught), rebuild the sealed-covenant dictionary (with no
`algorithm` or `verified` keys) and delegate to `verify_sealed_covenant`;
its `ValueError`/`binascii.Error` failures are also caught and become
`False`.  Total: no exception ever escapes. -/
def HierarchicalSeal.verify_complete_seal (h : HierarchicalSeal)
    (d : CompleteSealDict) : Bool :=
  match d.covenant, d.integrity with
  | some cov, some integ =>
    match integ.full_signature, integ.public_key with
    | some sig, some pk =>
      match h.crypto_seal.verify_sealed_covenant
          ⟨some cov, some sig, Option.none, some pk, Option.none⟩ with
      | .ok b => b
      | .error _ => false
    | _, _ => false
  | _, _ => false

/-- Decidable equality on `Except` outcomes, so that concrete runs of the
embedded functions can be evaluated inside proofs. -/
instance {ε α : Type} [DecidableEq ε] [DecidableEq α] :
    DecidableEq (Except ε α) := fun a b =>
  match a, b with
  | .ok x, .ok y =>
    if h : x = y then .isTrue (by rw [h])
    else .isFalse (fun hc => h (Except.ok.inj hc))
  | .error e, .error f =>
    if h : e = f then .isTrue (by rw [h])
    else .isFalse (fun hc => h (Except.error.inj hc))
  | .ok _, .error _ => .isFalse (fun hc => Except.noConfusion hc)
  | .error _, .ok _ => .isFalse (fun hc => Except.noConfusion hc)

/-! ## Claims -/

/-- C1: the claim that `verify` returns `false` (and does not raise) on a
structurally valid but non-matching signature is FALSE on the code: with a
freshly generated key pair (seed 0), signing b"CHICKA_CHICKA_ORANGE" and
then verifying the original signature against b"ALTERED_MESSAGE" makes
`verify` raise ValueError("Signature verification failed: ..."); it does
not return `false`. -/
theorem C1_counterexample :
    (CryptographicSeal.init .none .none 0).verify
        (some (strBytes "ALTERED_MESSAGE"))
        (some ((CryptographicSeal.init .none .none 0).sign
          (some (strBytes "CHICKA_CHICKA_ORANGE"))))
      = .error .valueErrorVerifyFailed
    ∧ (CryptographicSeal.init .none .none 0).verify
        (some (strBytes "ALTERED_MESSAGE"))
        (some ((CryptographicSeal.init .none .none 0).sign
          (some (strBytes "CHICKA_CHICKA_ORANGE"))))
      ≠ .ok false := by
  decide

/-- C1 (amended): for every structurally valid signature that does not match
the message under the instance's public key, `verify` raises
ValueError("Signature verification failed: ...") — it never returns
`false`. -/
theorem C1_mismatch_raises (s : CryptographicSeal) (p : Nat) (m msub : Bytes)
    (h : ¬ (p = s.public_key.point ∧ msub = m)) :
    s.verify (some m) (some (b64encode (SigBytes.sig p msub)))
      = .error .valueErrorVerifyFailed := by
  simp only [CryptographicSeal.verify, b64encode, b64decode,
    Ed25519PublicKey.verify, Option.getD_some]
  rw [if_neg h]

/-- Witness for C1 (amended) at a concrete mismatching key. -/
theorem C1_mismatch_raises_witness :
    ¬ ((1 : Nat) = (CryptographicSeal.init .none .none 0).public_key.point
        ∧ COVENANT_MESSAGE = COVENANT_MESSAGE)
    ∧ (CryptographicSeal.init .none .none 0).verify (some COVENANT_MESSAGE)
        (some (b64encode (SigBytes.sig 1 COVENANT_MESSAGE)))
      = .error .valueErrorVerifyFailed :=
  ⟨by decide,
    C1_mismatch_raises (CryptographicSeal.init .none .none 0) 1
      COVENANT_MESSAGE COVENANT_MESSAGE (by decide)⟩

/-- C2: for every message `m` and every freshly generated key pair (seal
constructed with no PEM arguments, CSPRNG seed `fresh`), verifying the
signature produced by `sign` over `m` with the same instance returns
`True`. -/
theorem C2_verify_sign_roundtrip (fresh : Nat) (m : Bytes) :
    (CryptographicSeal.init .none .none fresh).verify (some m)
        (some ((CryptographicSeal.init .none .none fresh).sign (some m)))
      = .ok true := by
  simp [CryptographicSeal.init, CryptographicSeal.sign, CryptographicSeal.verify,
    b64encode, b64decode, Ed25519PrivateKey.sign, Ed25519PublicKey.verify,
    Ed25519PrivateKey.public_key]

/-- C3: the claim that EVERY constructed instance (generated or imported)
has a public key equal to the one derived from its private key is FALSE on
the code: importing mismatched PEMs (private key with seed 0, public key
with point 1) stores the supplied public key verbatim, which differs from
the key derived from the private key. -/
theorem C3_counterexample :
    (CryptographicSeal.init (.pemOf ⟨0⟩) (.pemOf ⟨1⟩) 0).public_key
      ≠ ((CryptographicSeal.init (.pemOf ⟨0⟩) (.pemOf ⟨1⟩) 0).private_key).public_key := by
  decide

/-- C3 (amended): for every generated instance, and for every imported
instance whose supplied public PEM encodes exactly the key derived from the
supplied private PEM, the instance's public key equals the public key
derived from its private key; an imported instance stores the supplied
public PEM verbatim, so mismatched imports break the invariant. -/
theorem C3_public_key_derivable (fresh : Nat) (k : Ed25519PrivateKey) :
    (CryptographicSeal.init .none .none fresh).public_key
      = ((CryptographicSeal.init .none .none fresh).private_key).public_key
    ∧ (CryptographicSeal.init (.pemOf k) (.pemOf k.public_key) fresh).public_key
      = ((CryptographicSeal.init (.pemOf k) (.pemOf k.public_key) fresh).private_key).public_key :=
  ⟨rfl, rfl⟩

/-- C4: constructing a new `CryptographicSeal` from the PEM exports of a
generated key pair `k` yields an instance whose `sign` output over any
message `m` is byte-identical to `k`'s (Ed25519 is deterministic), and
whose signatures verify successfully. -/
theorem C4_pem_roundtrip (fresh fresh2 : Nat) (m : Bytes) :
    (CryptographicSeal.init
        (CryptographicSeal.init .none .none fresh).get_private_key_pem
        (CryptographicSeal.init .none .none fresh).get_public_key_pem fresh2).sign (some m)
      = (CryptographicSeal.init .none .none fresh).sign (some m)
    ∧ (CryptographicSeal.init
        (CryptographicSeal.init .none .none fresh).get_private_key_pem
        (CryptographicSeal.init .none .none fresh).get_public_key_pem fresh2).verify (some m)
        (some ((CryptographicSeal.init
          (CryptographicSeal.init .none .none fresh).get_private_key_pem
          (CryptographicSeal.init .none .none fresh).get_public_key_pem fresh2).sign (some m)))
      = .ok true := by
  refine ⟨rfl, ?_⟩
  simp [CryptographicSeal.init, CryptographicSeal.get_private_key_pem,
    CryptographicSeal.get_public_key_pem, CryptographicSeal.sign,
    CryptographicSeal.verify, b64encode, b64decode, Ed25519PrivateKey.sign,
    Ed25519PublicKey.verify, Ed25519PrivateKey.public_key]

/-- C5: the claim that `sign` fails with `KeyUnavailableError` on an
instance constructed with only a public key is FALSE on the code: no such
error class exists, and passing only a public PEM (point 5) silently
generates a fresh key pair (seed 7 here), so `sign` succeeds and its output
even verifies under the instance's own (generated) key. -/
theorem C5_counterexample :
    (CryptographicSeal.init .none (.pemOf ⟨5⟩) 7).private_key = ⟨7⟩
    ∧ (CryptographicSeal.init .none (.pemOf ⟨5⟩) 7).verify .none
        (some ((CryptographicSeal.init .none (.pemOf ⟨5⟩) 7).sign .none)) = .ok true := by
  decide

/-- C5 (amended): constructing with only a public key ignores the supplied
material and generates a fresh key pair, so `sign` succeeds using the
generated private key; `KeyUnavailableError` is never raised (it does not
exist in the code). -/
theorem C5_public_only_generates (pk : Ed25519PublicKey) (fresh : Nat) (m : Bytes) :
    (CryptographicSeal.init .none (.pemOf pk) fresh).private_key = ⟨fresh⟩
    ∧ (CryptographicSeal.init .none (.pemOf pk) fresh).sign (some m)
      = b64encode (Ed25519PrivateKey.sign ⟨fresh⟩ m) :=
  ⟨rfl, rfl⟩

/-- C6: the claim that a structurally invalid signature makes `verify`
fail with `MalformedSignatureError`, an error kind distinct from the
non-matching case, is FALSE on the code: a base64-decodable but
structurally invalid signature raises exactly the same
ValueError("Signature verification failed: ...") as a structurally valid
but non-matching signature, and neither case returns `false`. -/
theorem C6_counterexample :
    (CryptographicSeal.init .none .none 0).verify (some COVENANT_MESSAGE)
        (some (b64encode (SigBytes.malformed 3))) = .error .valueErrorVerifyFailed
    ∧ (CryptographicSeal.init .none .none 0).verify (some COVENANT_MESSAGE)
        (some (b64encode (SigBytes.sig 1 COVENANT_MESSAGE))) = .error .valueErrorVerifyFailed := by
  decide

/-- C6 (amended): a base64-decodable but structurally invalid signature
makes `verify` raise the same ValueError as a non-matching signature (no
distinct `MalformedSignatureError` exists), while text rejected by
`base64.b64decode` raises `binascii.Error` from outside the try block. -/
theorem C6_malformed_raises (s : CryptographicSeal) (m : Bytes) (j : Nat) :
    s.verify (some m) (some (b64encode (SigBytes.malformed j)))
      = .error .valueErrorVerifyFailed
    ∧ s.verify (some m) (some (B64Str.badPadding j)) = .error .binasciiError :=
  ⟨rfl, rfl⟩

/-- C7: the claim that verifying `k1`'s signature under `k2`'s public key
(for distinct key pairs) RETURNS `false` is FALSE on the code: at seeds 0
and 1 it raises ValueError("Signature verification failed: ...") instead
of returning `false`. -/
theorem C7_counterexample :
    (CryptographicSeal.init .none .none 1).verify (some COVENANT_MESSAGE)
        (some ((CryptographicSeal.init .none .none 0).sign (some COVENANT_MESSAGE)))
      = .error .valueErrorVerifyFailed
    ∧ (CryptographicSeal.init .none .none 1).verify (some COVENANT_MESSAGE)
        (some ((CryptographicSeal.init .none .none 0).sign (some COVENANT_MESSAGE)))
      ≠ .ok false := by
  decide

/-- C7 (amended): for every message and every two freshly generated key
pairs with distinct seeds, verifying the first pair's signature under the
second pair's public key raises ValueError("Signature verification
failed: ..."); it does not return `false`. -/
theorem C7_cross_key_raises (fresh1 fresh2 : Nat) (m : Bytes)
    (h : fresh1 ≠ fresh2) :
    (CryptographicSeal.init .none .none fresh2).verify (some m)
        (some ((CryptographicSeal.init .none .none fresh1).sign (some m)))
      = .error .valueErrorVerifyFailed := by
  simp [CryptographicSeal.init, CryptographicSeal.sign, CryptographicSeal.verify,
    b64encode, b64decode, Ed25519PrivateKey.sign, Ed25519PublicKey.verify,
    Ed25519PrivateKey.public_key, h]

/-- Witness for C7 (amended) at seeds 0 and 1. -/
theorem C7_cross_key_raises_witness :
    (0 : Nat) ≠ 1
    ∧ (CryptographicSeal.init .none .none 1).verify (some COVENANT_MESSAGE)
        (some ((CryptographicSeal.init .none .none 0).sign (some COVENANT_MESSAGE)))
      = .error .valueErrorVerifyFailed :=
  ⟨by decide, C7_cross_key_raises 0 1 COVENANT_MESSAGE (by decide)⟩

/-- C8: whenever at most one of `private_key_pem` and `public_key_pem` is a
non-empty string (only a public key, only a private key, empty strings, or
nothing), `__init__` does not raise and does not import the supplied
material: it generates a fresh key pair from the CSPRNG seed and derives
the public key from it. -/
theorem C8_init_generates_fresh (priv : PyStrOpt Ed25519PrivateKey)
    (pub : PyStrOpt Ed25519PublicKey) (fresh : Nat)
    (h : ¬ (priv.truthy = true ∧ pub.truthy = true)) :
    CryptographicSeal.init priv pub fresh = ⟨⟨fresh⟩, ⟨fresh⟩⟩ := by
  cases priv <;> cases pub <;> first | rfl | exact absurd ⟨rfl, rfl⟩ h

/-- Witness for C8 at an empty private PEM and a supplied public PEM. -/
theorem C8_init_generates_fresh_witness :
    ¬ ((PyStrOpt.emptyStr : PyStrOpt Ed25519PrivateKey).truthy = true
        ∧ (PyStrOpt.pemOf (⟨5⟩ : Ed25519PublicKey)).truthy = true)
    ∧ CryptographicSeal.init .emptyStr (.pemOf ⟨5⟩) 9 = ⟨⟨9⟩, ⟨9⟩⟩ :=
  ⟨by decide, C8_init_generates_fresh .emptyStr (.pemOf ⟨5⟩) 9 (by decide)⟩

/-- C9: `verify_sealed_covenant` checks the dictionary's `signature` over
its `covenant` with `self.verify`, i.e. under the receiving instance's own
public key, for every value of the dictionary's `algorithm`, `public_key`
and `verified` entries (they are never read); consequently a sealed
covenant created by a different key pair never verifies successfully under
this method even though the bundled public key matches its signature (the
call raises ValueError rather than returning `True`). -/
theorem C9_verify_sealed_covenant_own_key (s : CryptographicSeal)
    (cov : String) (sig : B64Str) (alg : Option String)
    (pk : Option (PyStrOpt Ed25519PublicKey)) (ver : Option Bool)
    (fresh1 fresh2 : Nat) (h : fresh1 ≠ fresh2) :
    s.verify_sealed_covenant ⟨some cov, some sig, alg, pk, ver⟩
      = s.verify (some (strBytes cov)) (some sig)
    ∧ (CryptographicSeal.init .none .none fresh2).verify_sealed_covenant
        ((CryptographicSeal.init .none .none fresh1).create_sealed_covenant)
      = .error .valueErrorVerifyFailed := by
  constructor
  · rfl
  · simp [CryptographicSeal.init, CryptographicSeal.create_sealed_covenant,
      CryptographicSeal.sign, CryptographicSeal.verify_sealed_covenant,
      CryptographicSeal.verify, CryptographicSeal.get_public_key_pem,
      b64encode, b64decode, Ed25519PrivateKey.sign, Ed25519PublicKey.verify,
      Ed25519PrivateKey.public_key, h]

/-- Witness for C9 at seeds 0 (sealer) and 1 (verifier). -/
theorem C9_verify_sealed_covenant_own_key_witness :
    (0 : Nat) ≠ 1
    ∧ (CryptographicSeal.init .none .none 1).verify_sealed_covenant
        ((CryptographicSeal.init .none .none 0).create_sealed_covenant)
      = .error .valueErrorVerifyFailed :=
  ⟨by decide,
    (C9_verify_sealed_covenant_own_key (CryptographicSeal.init .none .none 1)
      "CHICKA_CHICKA_ORANGE" (b64encode (SigBytes.sig 0 COVENANT_MESSAGE))
      Option.none Option.none Option.none 0 1 (by decide)).2⟩

/-- C10: `HierarchicalSeal.verify_complete_seal` is a total Boolean
function (the Python wraps the whole body in `try/except Exception`, so no
exception escapes): it returns `True` exactly when the `covenant` key, the
`integrity` sub-dictionary and its `full_signature` and `public_key` keys
are all present and the embedded signature verifies over the embedded
covenant under the instance's own key; every failure — a missing key, a
malformed signature, or a non-matching signature — yields `False`. -/
theorem C10_verify_complete_seal_total (h : HierarchicalSeal)
    (d : CompleteSealDict) :
    h.verify_complete_seal d = true ↔
      ∃ cov integ sig pk, d.covenant = some cov ∧ d.integrity = some integ
        ∧ integ.full_signature = some sig ∧ integ.public_key = some pk
        ∧ h.crypto_seal.verify (some (strBytes cov)) (some sig) = .ok true := by
  obtain ⟨dcov, dint⟩ := d
  cases dcov with
  | none => simp [HierarchicalSeal.verify_complete_seal]
  | some cov =>
    cases dint with
    | none => simp [HierarchicalSeal.verify_complete_seal]
    | some integ =>
      obtain ⟨ih, ia, ifs, ipk⟩ := integ
      cases ifs with
      | none => simp [HierarchicalSeal.verify_complete_seal]
      | some sig =>
        cases ipk with
        | none => simp [HierarchicalSeal.verify_complete_seal]
        | some pk =>
          cases hv : h.crypto_seal.verify (some (strBytes cov)) (some sig) with
          | ok b =>
            cases b <;>
              simp [HierarchicalSeal.verify_complete_seal,
                CryptographicSeal.verify_sealed_covenant, hv]
          | error e =>
            simp [HierarchicalSeal.verify_complete_seal,
              CryptographicSeal.verify_sealed_covenant, hv]
